import Mathlib

/-!
A shallow embedding of the parsing/orchestration core of the
guardrail_service repository:

* `src/app/services/parser.py` — `parse_evaluation`, `_extract_block`,
  the `SECTION_HEADERS` table and the grade regexes;
* `src/app/routers/scan.py` — `scan_compliance`: the document-count
  check, the per-rule verdict computation and the `rephrased_prompt`
  decision, together with the number of LLM calls issued;
* `src/app/routers/aggregator_result.py` — the tail of
  `aggregate_compliance` that rebuilds the recommendations map from the
  decoded LLM reply;
* `src/app/services/compliance_service.py` — `validate_compliance_data`
  and `load_compliances`;
* `src/app/models/compliance_definition.py` — the pydantic field
  constraints that are active at runtime, plus the body of
  `validate_prompt_template` (which pydantic never registers, because
  `@classmethod` is stacked above `@field_validator`).

Python floats are modelled as exact rationals; none of the verified
properties depends on binary rounding.  Text is `List Char`; the regex
class `\s` is modelled by its ASCII subset, which covers every header
pattern and every input used below.  The external LLM is an oracle
argument (one reply per rule), and file/YAML access is an abstract
`Source` value, since both are external collaborators of this core.
-/

unseal Rat.add Rat.mul Rat.inv Rat.sub

namespace Guardrail

/-- ASCII subset of the regex class `\s`: space, tab, newline, carriage
return, vertical tab, form feed. -/
def isPySpace (c : Char) : Bool :=
  c = ' ' || c = '\t' || c = '\n' || c = '\r' || c = Char.ofNat 11 || c = Char.ofNat 12

/-- Python `str.strip()` (on the ASCII whitespace subset). -/
def pyStrip (cs : List Char) : List Char :=
  ((cs.dropWhile isPySpace).reverse.dropWhile isPySpace).reverse

/-- ASCII lowercasing: the effect of `re.IGNORECASE` on the ASCII header
patterns of `parser.py`. -/
def lowerChar (c : Char) : Char :=
  if 'A' ≤ c && c ≤ 'Z' then Char.ofNat (c.toNat + 32) else c

/-- Case-insensitive literal match; returns the remaining input on success. -/
def matchLitCI : List Char → List Char → Option (List Char)
  | [], cs => some cs
  | _ :: _, [] => none
  | l :: ls, c :: cs => if lowerChar l = lowerChar c then matchLitCI ls cs else none

/-- Case-sensitive literal match (the `Score:`/`Threshold:` regexes carry no
IGNORECASE flag). -/
def matchLitCS : List Char → List Char → Option (List Char)
  | [], cs => some cs
  | _ :: _, [] => none
  | l :: ls, c :: cs => if l = c then matchLitCS ls cs else none

/-- Regex `\s+`: at least one whitespace character, consumed greedily.  The
next token of every pattern using it starts with a non-space character, so
the maximal munch is exact. -/
def dropWs1 : List Char → Option (List Char)
  | c :: cs => if isPySpace c then some (cs.dropWhile isPySpace) else none
  | [] => none

/-- The `(\s+word)*` tail of a multi-word header pattern such as
`Why\s+It\s+Failed`. -/
def matchWordsTail : List (List Char) → List Char → Option (List Char)
  | [], cs => some cs
  | w :: ws, cs =>
    match dropWs1 cs with
    | none => none
    | some cs1 =>
      match matchLitCI w cs1 with
      | none => none
      | some cs2 => matchWordsTail ws cs2

/-- Anchored match of a header pattern `###\s*w₀(\s+wᵢ)*`, case-insensitive,
as in the `SECTION_HEADERS` patterns of `parser.py`. -/
def matchHeaderAt (words : List (List Char)) (cs : List Char) : Option (List Char) :=
  match matchLitCI ['#', '#', '#'] cs with
  | none => none
  | some cs1 =>
    match words with
    | [] => some cs1
    | w :: ws =>
      match matchLitCI w (cs1.dropWhile isPySpace) with
      | none => none
      | some cs2 => matchWordsTail ws cs2

/-- Index of the last newline inside the leading whitespace run, if any. -/
def lastNlInRun : List Char → Option Nat
  | [] => none
  | c :: cs =>
    if isPySpace c then
      match lastNlInRun cs with
      | some j => some (j + 1)
      | none => if c = '\n' then some 0 else none
    else none

/-- Regex `\s*\n` with greedy backtracking: consume up to and including the
last newline of the leading whitespace run; fail when the run holds no
newline. -/
def consumeWsNl (cs : List Char) : Option (List Char) :=
  match lastNlInRun cs with
  | none => none
  | some i => some (cs.drop (i + 1))

/-- A section header followed by `\s*\n`, anchored at the current position:
the prefix of the `_extract_block` pattern. -/
def matchHeaderNl (words : List (List Char)) (cs : List Char) : Option (List Char) :=
  match matchHeaderAt words cs with
  | none => none
  | some rest => consumeWsNl rest

/-- `re.search`: try an anchored matcher at every position, leftmost first
(also at the empty final position). -/
def reSearch {α : Type} (p : List Char → Option α) : List Char → Option α
  | [] => p []
  | c :: cs =>
    match p (c :: cs) with
    | some r => some r
    | none => reSearch p cs

/-- Offset of the first position where the lazy capture's lookahead
`\n<next-header>\s*\n` matches; the input length when it never does, in
which case the capture runs to the end of the text. -/
def findTermIdx (nextWords : List (List Char)) : List Char → Nat
  | [] => 0
  | c :: cs =>
    if c = '\n' && (matchHeaderNl nextWords cs).isSome then 0
    else findTermIdx nextWords cs + 1

/-- `_extract_block` from `parser.py`: search for the leftmost
`start_pat\s*\n`, capture lazily up to `\n next_pat \s*\n` (or to the end
when `next_pat` is absent or never matches), and strip the result.  An
unmatched header yields the empty block. -/
def extract_block (words : List (List Char)) (next? : Option (List (List Char)))
    (text : List Char) : List Char :=
  match reSearch (matchHeaderNl words) text with
  | none => []
  | some rest =>
    match next? with
    | none => pyStrip rest
    | some nw => pyStrip (rest.take (findTermIdx nw rest))

/-- Word lists of the six `SECTION_HEADERS` patterns, in source order. -/
def hdr_problem : List (List Char) := ["problem".data]

def hdr_why_it_failed : List (List Char) := ["why".data, "it".data, "failed".data]

def hdr_what_to_fix : List (List Char) := ["what".data, "to".data, "fix".data]

def hdr_rephrase : List (List Char) := ["prompt".data, "rephrase".data]

def hdr_compliance_id : List (List Char) := ["compliance".data, "id".data, "and".data, "name".data]

def hdr_grade : List (List Char) := ["grade".data]

/-- The backtick character (the grade regexes allow optional backticks). -/
def backtick : Char := Char.ofNat 96

def digitsToNat (ds : List Char) : Nat :=
  ds.foldl (fun a c => 10 * a + (c.toNat - 48)) 0

/-- Regex `\d+(?:\.\d+)?` anchored here: greedy digits with an optional
fractional group, skipped when the dot is not followed by a digit. -/
def parseNumAt (cs : List Char) : Option (ℚ × List Char) :=
  let ds := cs.takeWhile Char.isDigit
  if ds.isEmpty then none
  else
    let rest := cs.drop ds.length
    match rest with
    | '.' :: rest2 =>
      let fs := rest2.takeWhile Char.isDigit
      if fs.isEmpty then some ((digitsToNat ds : ℚ), rest)
      else some ((digitsToNat ds : ℚ) + (digitsToNat fs : ℚ) / ((10 : ℚ) ^ fs.length),
                 rest2.drop fs.length)
    | _ => some ((digitsToNat ds : ℚ), rest)

/-- An optional backtick; dropping it when present is complete, since a
backtick can never satisfy the digit that must follow. -/
def dropBacktick (cs : List Char) : List Char :=
  match cs with
  | c :: rest => if c = backtick then rest else cs
  | [] => cs

/-- Anchored body of the score regex of `parser.py` line 48. -/
def matchScoreAt (cs : List Char) : Option (ℚ × ℚ) :=
  match matchLitCS "Score:".data cs with
  | none => none
  | some cs1 =>
    match parseNumAt (dropBacktick (cs1.dropWhile isPySpace)) with
    | none => none
    | some (score, cs2) =>
      match cs2.dropWhile isPySpace with
      | '/' :: cs3 =>
        match parseNumAt (cs3.dropWhile isPySpace) with
        | none => none
        | some (denom, _) => some (score, denom)
      | _ => none

/-- Anchored body of the threshold regex of `parser.py` line 50. -/
def matchThresholdAt (cs : List Char) : Option ℚ :=
  match matchLitCS "Threshold:".data cs with
  | none => none
  | some cs1 =>
    match parseNumAt (dropBacktick (cs1.dropWhile isPySpace)) with
    | none => none
    | some (t, _) => some t

/-- Anchored body of the result regex of `parser.py` line 51 (IGNORECASE);
group 1 is returned with its original casing. -/
def matchResultAt (cs : List Char) : Option String :=
  match matchLitCI "result:".data cs with
  | none => none
  | some cs1 =>
    let cs2 := cs1.dropWhile isPySpace
    let w := cs2.take 6
    if w.map lowerChar = "passed".data || w.map lowerChar = "failed".data
    then some (String.mk w) else none

/-- The grade record built at `parser.py` lines 53–59. -/
structure Grade where
  score_raw : ℚ
  denominator : ℚ
  score_ratio : Option ℚ
  threshold : Option ℚ
  result : Option String
deriving DecidableEq

/-- A value of the `parse_evaluation` output mapping: five sections are
strings, the `grade` key holds the grade record. -/
inductive PVal where
  | s (v : String)
  | g (v : Grade)
deriving DecidableEq

/-- The `grade_raw` block: last entry of `SECTION_HEADERS`, hence extracted
with no next pattern. -/
def grade_block_of (text : String) : List Char :=
  extract_block hdr_grade none text.data

/-- Lines 47–59 of `parser.py`: score and denominator default to 0 and 1
when the score regex finds no match; `score_ratio` is `None` exactly when
the denominator is (the float) zero. -/
def parse_grade_block (gb : List Char) : Grade :=
  let sd := (reSearch matchScoreAt gb).getD (0, 1)
  { score_raw := sd.1
  , denominator := sd.2
  , score_ratio := if sd.2 = 0 then none else some (sd.1 / sd.2)
  , threshold := reSearch matchThresholdAt gb
  , result := reSearch matchResultAt gb }

/-- `parse_evaluation` from `parser.py`: one `_extract_block` per entry of
`SECTION_HEADERS` — each block is searched for in the whole text and
terminates at the next header of the list — with `grade_raw` popped and
replaced by the parsed grade record.  Total on every string; the list
order is the Python dict's insertion order. -/
def parse_evaluation (text : String) : List (String × PVal) :=
  [ ("problem", .s (String.mk (extract_block hdr_problem (some hdr_why_it_failed) text.data)))
  , ("why_it_failed", .s (String.mk (extract_block hdr_why_it_failed (some hdr_what_to_fix) text.data)))
  , ("what_to_fix", .s (String.mk (extract_block hdr_what_to_fix (some hdr_rephrase) text.data)))
  , ("rephrase_prompt", .s (String.mk (extract_block hdr_rephrase (some hdr_compliance_id) text.data)))
  , ("compliance_id_and_name", .s (String.mk (extract_block hdr_compliance_id (some hdr_grade) text.data)))
  , ("grade", .g (parse_grade_block (grade_block_of text))) ]

/-- Accessor for the grade record of a parse result (`parsed.get("grade")`,
which is always present in a `parse_evaluation` output). -/
def grade_of (out : List (String × PVal)) : Option Grade :=
  match out.lookup "grade" with
  | some (.g g) => some g
  | _ => none

/-- `parsed.get("grade", {}).get("score_ratio")` from `scan.py` line 197. -/
def score_ratio_of (out : List (String × PVal)) : Option ℚ :=
  match grade_of out with
  | some g => g.score_ratio
  | none => none

/-- Python `x or 0.0` on an optional float: `None` and `0.0` are falsy. -/
def pyOrZero : Option ℚ → ℚ
  | none => 0
  | some r => if r = 0 then 0 else r

/-- `ratio = float(parsed.get("grade", {}).get("score_ratio") or 0.0)`
(`scan.py` line 197). -/
def verdict_ratio (out : List (String × PVal)) : ℚ :=
  pyOrZero (score_ratio_of out)

/-- `passed = ratio >= comp.threshold` (`scan.py` line 198): ties pass. -/
def verdict_passed (out : List (String × PVal)) (threshold : ℚ) : Bool :=
  decide (verdict_ratio out ≥ threshold)

/-- A validated compliance rule (`compliance_definition.py`); thresholds are
modelled as exact rationals. -/
structure ComplianceDefinition where
  id : String
  name : String
  description : String
  threshold : ℚ
  prompt : String
deriving DecidableEq

/-- The settings consumed by the scan router (`config.py` lines 78–79), with
their source defaults; both are environment-overridable. -/
structure Settings where
  max_documents : Nat := 10
  max_document_size : Nat := 1048576
deriving DecidableEq

/-- `ScanRequest` from `schemas.py`: `documents` defaults to the empty list. -/
structure ScanRequest where
  prompt : String
  documents : List String
deriving DecidableEq

/-- `ParsedSection` from `schemas.py`, as filled at `scan.py` lines 200–207;
the source stores `str(ratio)` in `grade`, modelled here by the numeric
ratio itself. -/
structure ParsedSection where
  problem : String
  why_it_failed : String
  explain : String
  rephrase_prompt : String
  compliance_id_and_name : String
  grade : ℚ
deriving DecidableEq

/-- `ComplianceResult` from `schemas.py`. -/
structure ComplianceResult where
  name : String
  description : String
  parsed : ParsedSection
  threshold : ℚ
  passed : Bool
deriving DecidableEq

/-- `ScanResponse` from `schemas.py`: `detailed` is a rule-id-keyed mapping
(modelled as an association list in insertion order). -/
structure ScanResponse where
  detailed : List (String × ComplianceResult)
  rephrased_prompt : Option String
deriving DecidableEq

/-- String lookup in a parse result (`parsed.get(key)`). -/
def getStr (out : List (String × PVal)) (k : String) : String :=
  match out.lookup k with
  | some (.s v) => v
  | _ => ""

/-- The per-rule body of the scan loop (`scan.py` lines 196–214): parse the
raw LLM reply, coerce the score ratio, compare against the rule threshold. -/
def eval_rule (comp : ComplianceDefinition) (raw_reply : String) : ComplianceResult :=
  let parsed := parse_evaluation raw_reply
  { name := comp.name
  , description := comp.description
  , parsed :=
    { problem := getStr parsed "problem"
    , why_it_failed := getStr parsed "why_it_failed"
    , explain := getStr parsed "what_to_fix"
    , rephrase_prompt := getStr parsed "rephrase_prompt"
    , compliance_id_and_name := getStr parsed "compliance_id_and_name"
    , grade := verdict_ratio parsed }
  , threshold := comp.threshold
  , passed := verdict_passed parsed comp.threshold }

/-- `scan_compliance` from `scan.py` (lines 155–240), after a successful
rule-set load: the document-count guard (line 171) runs before any LLM
call; then one LLM call per rule, sequentially; finally the response is
built with `rephrased_prompt = None if failures else req.prompt`
(line 239).  The oracle maps rule positions to raw LLM replies; the
second component counts the LLM calls issued. -/
def scan_compliance (st : Settings) (comps : List ComplianceDefinition)
    (req : ScanRequest) (oracle : Nat → String) :
    Except String ScanResponse × Nat :=
  if req.documents ≠ [] ∧ req.documents.length > st.max_documents then
    (.error ("Too many documents (max " ++ toString st.max_documents ++ ")"), 0)
  else
    let results := comps.enum.map (fun p => (p.2.id, eval_rule p.2 (oracle p.1)))
    let failures := (results.filter (fun r => !r.2.passed)).map (fun r => r.1)
    (.ok { detailed := results
         , rephrased_prompt := if failures.isEmpty then some req.prompt else none }
    , comps.length)

/-- A decoded Python/JSON value (also used for YAML-loaded data, since
`yaml.safe_load` produces the same shapes). -/
inductive PyJson where
  | null
  | b (v : Bool)
  | num (v : ℚ)
  | s (v : String)
  | arr (items : List PyJson)
  | obj (entries : List (String × PyJson))

/-- Python truthiness of a decoded value. -/
def pyTruthy : PyJson → Bool
  | .null => false
  | .b v => v
  | .num v => decide (v ≠ 0)
  | .s v => decide (v ≠ "")
  | .arr l => !l.isEmpty
  | .obj l => !l.isEmpty

/-- `result.get("Rephrase Prompt") or req.original_prompt`
(`aggregator_result.py` line 166). -/
def pyOrJson (v : Option PyJson) (dflt : String) : PyJson :=
  match v with
  | some j => if pyTruthy j then j else .s dflt
  | none => .s dflt

/-- `AggregationResponse` from `aggregator_result.py`; the summary and the
rephrase are carried as decoded values (the source assigns whatever the
reply held). -/
structure AggregationResponse where
  aggregated_summary : PyJson
  recommendations : List (String × PyJson)
  rephrased_prompt : PyJson

/-- Lines 150–178 of `aggregator_result.py`, from the decoded LLM reply on:
require the `Aggregated Summary` key, read `Recommendations` with a `{}`
default, then rebuild the recommendations map over the keys of the
request's `failed_json`, defaulting each missing id to `[]`.  A reply that
is not a JSON object, or whose `Recommendations` value is not an object,
makes the source raise (modelled as an error). -/
def aggregate_result_response (failed_keys : List String) (original_prompt : String)
    (result : PyJson) : Except String AggregationResponse :=
  match result with
  | .obj entries =>
    match entries.lookup "Aggregated Summary" with
    | none => .error "Aggregation result JSON is missing Aggregated Summary"
    | some summary =>
      match entries.lookup "Recommendations" with
      | some (.obj raw_recs) =>
        .ok { aggregated_summary := summary
            , recommendations :=
                failed_keys.map (fun cid => (cid, (raw_recs.lookup cid).getD (.arr [])))
            , rephrased_prompt := pyOrJson (entries.lookup "Rephrase Prompt") original_prompt }
      | none =>
        .ok { aggregated_summary := summary
            , recommendations := failed_keys.map (fun cid => (cid, PyJson.arr []))
            , rephrased_prompt := pyOrJson (entries.lookup "Rephrase Prompt") original_prompt }
      | some _ => .error "AttributeError: Recommendations value has no get method"
  | _ => .error "aggregation reply is not a JSON object"

/-- The three distinct exception types `load_compliances` can raise
(`compliance_service.py` lines 99–131): `FileNotFoundError`,
`yaml.YAMLError`, and `ValueError` for the two validation stages. -/
inductive LoadError where
  | fileNotFound
  | yamlError
  | invalidStructure
  | invalidDefinition
deriving DecidableEq

/-- The rule-set source as the loader observes it: absent file, file whose
YAML fails to parse, or successfully decoded data. -/
inductive Source where
  | missing
  | unparsable
  | parsed (data : PyJson)

/-- `isinstance(x, (int, float))`: Python booleans are `int` instances. -/
def isNumberLike : PyJson → Bool
  | .num _ => true
  | .b _ => true
  | _ => false

/-- The per-item checks of `validate_compliance_data` (`compliance_service.py`
lines 49–71): the item is a mapping, holds the four required keys (`prompt`
is not among them), and its threshold is numeric. -/
def validate_item : PyJson → Bool
  | .obj e =>
    (e.lookup "id").isSome && (e.lookup "name").isSome &&
    (e.lookup "description").isSome && (e.lookup "threshold").isSome &&
    isNumberLike ((e.lookup "threshold").getD .null)
  | _ => false

/-- `validate_compliance_data` (`compliance_service.py` lines 30–72): data is
a mapping with a `compliances` list whose items all validate (the source
breaks at the first failure, which yields the same boolean). -/
def validate_compliance_data : PyJson → Bool
  | .obj entries =>
    match entries.lookup "compliances" with
    | some (.arr items) => items.all validate_item
    | _ => false
  | _ => false

/-- `data.get("compliances", [])`. -/
def pyItems : PyJson → List PyJson
  | .obj e =>
    match e.lookup "compliances" with
    | some (.arr l) => l
    | _ => []
  | _ => []

def asStr : Option PyJson → Option String
  | some (.s v) => some v
  | _ => none

def asNum : Option PyJson → Option ℚ
  | some (.num v) => some v
  | _ => none

/-- The character class of the `id` field pattern `^[a-zA-Z0-9_-]+$`. -/
def isIdChar (c : Char) : Bool := c.isAlphanum || c = '_' || c = '-'

/-- `ComplianceDefinition(**item)` with the pydantic checks that actually run:
the `Field` constraints of `compliance_definition.py` lines 22–54.  The
`validate_prompt_template` placeholder check is NOT among them: in the
source `@classmethod` is stacked above `@field_validator("prompt")`, so the
pydantic metaclass never registers the validator and it is silently
skipped — its body is modelled separately below. -/
def ofItem (item : PyJson) : Option ComplianceDefinition :=
  match item with
  | .obj e =>
    match asStr (e.lookup "id"), asStr (e.lookup "name"), asStr (e.lookup "description"),
          asNum (e.lookup "threshold"), asStr (e.lookup "prompt") with
    | some id, some name, some description, some threshold, some prompt =>
      if decide (1 ≤ id.length) && id.data.all isIdChar &&
         decide (1 ≤ name.length) && decide (name.length ≤ 100) &&
         decide (10 ≤ description.length) && decide (description.length ≤ 1000) &&
         decide (0 ≤ threshold) && decide (threshold ≤ 1) &&
         decide (20 ≤ prompt.length)
      then some { id := id, name := name, description := description
                , threshold := threshold, prompt := prompt }
      else none
    | _, _, _, _, _ => none
  | _ => none

/-- The sequential conversion loop of `load_compliances` (lines 124–131):
the first item that fails to construct aborts the whole load. -/
def mapO {α β : Type} (f : α → Option β) : List α → Option (List β)
  | [] => some []
  | x :: xs =>
    match f x with
    | none => none
    | some y =>
      match mapO f xs with
      | none => none
      | some ys => some (y :: ys)

/-- `load_compliances` (`compliance_service.py` lines 75–141): missing file,
unparsable YAML, invalid structure and invalid item raise four distinct
errors; on success every item of the source is converted. -/
def load_compliances (src : Source) : Except LoadError (List ComplianceDefinition) :=
  match src with
  | .missing => .error .fileNotFound
  | .unparsable => .error .yamlError
  | .parsed data =>
    if validate_compliance_data data then
      match mapO ofItem (pyItems data) with
      | some cs => .ok cs
      | none => .error .invalidDefinition
    else .error .invalidStructure

/-- Python's substring test `needle in hay`. -/
def occursIn (needle : List Char) : List Char → Bool
  | [] => needle.isEmpty
  | c :: cs => needle.isPrefixOf (c :: cs) || occursIn needle cs

def strOccurs (needle hay : String) : Bool := occursIn needle.data hay.data

/-- The body of `validate_prompt_template` (`compliance_definition.py` lines
56–65): reject a prompt template missing the `\x7buser_input\x7d` or the
`\x7bdocuments\x7d` placeholder.  Pydantic never runs it (see `ofItem`). -/
def validate_prompt_template (v : String) : Except String String :=
  if strOccurs "\x7buser_input\x7d" v && strOccurs "\x7bdocuments\x7d" v
  then .ok v
  else .error "Prompt template must contain placeholders"

/-- Split a character list at newlines. -/
def splitOnNl : List Char → List (List Char)
  | [] => [[]]
  | c :: cs =>
    if c = '\n' then [] :: splitOnNl cs
    else
      match splitOnNl cs with
      | [] => [[c]]
      | l :: ls => (c :: l) :: ls

/-- A numbered line `<n>. text` of a list-valued block, returning its text. -/
def numbered_entry (line : List Char) : Option (List Char) :=
  let l := line.dropWhile isPySpace
  let ds := l.takeWhile Char.isDigit
  if ds.isEmpty then none
  else
    match l.drop ds.length with
    | '.' :: rest => some (pyStrip rest)
    | _ => none

/-- Modelled from the spec: the numbered-line splitting of list-valued
sections (reasoning points, recommendations, insights).  The parser of the
richer template variant — the consumer of the `OUTPUT_PATTERNS` table
declared in `src/app/models/evaluation_patterns.py` and of the list-valued
`parsed` fields read by `examples/compliance_check.py` — is not present
under `src/`; only those declarations and callers are.  Per the spec's
words: a captured block containing numbered lines is split into one entry
per numbered line; otherwise a non-empty block becomes a single-entry
list; an empty block yields the empty list, never null. -/
def split_list_section (block : String) : List String :=
  let ls := splitOnNl block.data
  let nums := ls.filterMap numbered_entry
  if !nums.isEmpty then nums.map String.mk
  else if (pyStrip block.data).isEmpty then []
  else [block]

/-- The default settings (`config.py`: MAX_DOCUMENTS 10, MAX_DOCUMENT_SIZE 1 MiB). -/
def settings0 : Settings := {}

def descA : String := "Ensure answers are based on source documents only."

/-- A single rule with threshold 0.5, as in the spec's end-to-end scenario A. -/
def compA : ComplianceDefinition :=
  { id := "PC1"
  , name := "Grounded Response"
  , description := descA
  , threshold := 1/2
  , prompt := "Check \x7buser_input\x7d against \x7bdocuments\x7d for grounding." }

/-- The request of the spec's end-to-end scenario A. -/
def reqA : ScanRequest :=
  { prompt := "Summarize the attached function.", documents := ["def f(): ..."] }

/-- An LLM reply whose grade clears the 0.5 threshold. -/
def replyA : String := "### Grade\nScore: 0.80/1\nThreshold: 0.5\nResult: Passed"

/-- An LLM reply whose grade misses the 0.5 threshold. -/
def replyB : String := "### Grade\nScore: 0.20/1\nThreshold: 0.5\nResult: Failed"

/-- The per-rule result the code computes for `replyA`. -/
def resA : ComplianceResult :=
  { name := "Grounded Response"
  , description := descA
  , parsed := { problem := "", why_it_failed := "", explain := ""
              , rephrase_prompt := "", compliance_id_and_name := "", grade := 4/5 }
  , threshold := 1/2
  , passed := true }

/-- The per-rule result the code computes for `replyB`. -/
def resB : ComplianceResult :=
  { name := "Grounded Response"
  , description := descA
  , parsed := { problem := "", why_it_failed := "", explain := ""
              , rephrase_prompt := "", compliance_id_and_name := "", grade := 1/5 }
  , threshold := 1/2
  , passed := false }

/-- A grade block carrying the spec's round-trip grade `0.66/1`. -/
def g066 : String := "### Grade\nScore: 0.66/1\nThreshold: 0.97\nResult: Failed"

/-- A grade block whose score matches with denominator zero. -/
def g05d0 : String := "### Grade\nScore: 0.5/0"

/-- The grade record when the score regex finds no match. -/
def defaultGrade : Grade :=
  { score_raw := 0, denominator := 1, score_ratio := some 0
  , threshold := none, result := none }

/-- The six keys of every `parse_evaluation` result, in insertion order. -/
def parseKeys : List String :=
  ["problem", "why_it_failed", "what_to_fix", "rephrase_prompt", "compliance_id_and_name", "grade"]

def plainText : String := "no markdown sections appear in this reply"

/-- Sections emitted out of the documented order: Grade before Problem. -/
def oooText : String := "### Grade\nScore: 0.5/1\n### Problem\nOops"

/-- Settings with a small document-size limit, for the size-check claim. -/
def settingsSmall : Settings := { max_documents := 10, max_document_size := 4 }

/-- One document of five bytes: over `settingsSmall`'s size limit. -/
def reqBig : ScanRequest := { prompt := "p", documents := ["aaaaa"] }

/-- Eleven documents: over the default count limit of ten. -/
def req11 : ScanRequest := { prompt := "p", documents := List.replicate 11 "d" }

def isOkE (e : Except String ScanResponse) : Bool :=
  match e with
  | .ok _ => true
  | .error _ => false

/-- A decoded aggregator reply that mentions only `PC1` in its
recommendations, as in the spec's aggregator test. -/
def aggReply : PyJson :=
  .obj [ ("Aggregated Summary", .s "Ground answers in the documents.")
       , ("Recommendations", .obj [("PC1", .arr [.s "Cite the source document."])]) ]

/-- The response the aggregator builds from `aggReply` for failing ids
`PC1` and `PC2`. -/
def aggRespExpected : AggregationResponse :=
  { aggregated_summary := .s "Ground answers in the documents."
  , recommendations := [("PC1", .arr [.s "Cite the source document."]), ("PC2", .arr [])]
  , rephrased_prompt := .s "orig prompt" }

/-- A prompt template with no placeholders (44 characters, so the active
`min_length=20` constraint passes). -/
def promptNP : String := "Review the answer for policy compliance now."

def itemNP : PyJson :=
  .obj [ ("id", .s "PC9")
       , ("name", .s "Placeholder Check")
       , ("description", .s "A compliance rule whose template has no placeholders.")
       , ("threshold", .num (1/2))
       , ("prompt", .s promptNP) ]

def dataNP : PyJson := .obj [("compliances", .arr [itemNP])]

/-- The rule object `load_compliances` returns for `itemNP`. -/
def ruleNP : ComplianceDefinition :=
  { id := "PC9"
  , name := "Placeholder Check"
  , description := "A compliance rule whose template has no placeholders."
  , threshold := 1/2
  , prompt := promptNP }

/-- The parse result's grade record is exactly the one computed from the
extracted grade block. -/
theorem grade_of_parse (text : String) :
    grade_of (parse_evaluation text) = some (parse_grade_block (grade_block_of text)) := rfl

/-- When the parse result's score ratio is present, the verdict ratio the
scan router computes equals it (Python's `or 0.0` maps `0.0` to itself). -/
theorem verdict_ratio_of_some (text : String) (r : ℚ)
    (h : score_ratio_of (parse_evaluation text) = some r) :
    verdict_ratio (parse_evaluation text) = r := by
  unfold verdict_ratio
  rw [h]
  simp only [pyOrZero]
  split_ifs with h0
  · exact h0.symm
  · rfl

/-- A member on which `f` fails makes the sequential conversion fail. -/
theorem mapO_none_of_mem {α β : Type} (f : α → Option β) :
    ∀ (l : List α) (a : α), a ∈ l → f a = none → mapO f l = none := by
  intro l
  induction l with
  | nil => intro a ha; cases ha
  | cons x xs ih =>
    intro a ha hf
    rcases List.mem_cons.mp ha with h | h
    · subst h
      simp [mapO, hf]
    · cases hx : f x with
      | none => simp [mapO, hx]
      | some y => simp [mapO, hx, ih a h hf]

/-- A successful sequential conversion converts every member. -/
theorem mapO_length {α β : Type} (f : α → Option β) :
    ∀ (l : List α) (bs : List β), mapO f l = some bs → bs.length = l.length := by
  intro l
  induction l with
  | nil =>
    intro bs h
    simp [mapO] at h
    subst h
    rfl
  | cons x xs ih =>
    intro bs h
    unfold mapO at h
    cases hx : f x with
    | none => rw [hx] at h; exact absurd h (by simp)
    | some y =>
      rw [hx] at h
      cases hm : mapO f xs with
      | none => rw [hm] at h; exact absurd h (by simp)
      | some ys =>
        rw [hm] at h
        injection h with h1
        subst h1
        simp [ih ys hm]

/-- Mapping each element to a pair keyed by itself keeps the key list. -/
theorem map_fst_pair {α β : Type} (f : α → β) (l : List α) :
    (l.map fun a => (a, f a)).map Prod.fst = l := by
  induction l with
  | nil => rfl
  | cons x xs ih => simp only [List.map_cons, ih]

/-- Claim C1: the spec says `rephrased_prompt` is non-null iff at least one
rule failed (null when all pass).  The code at `scan.py` line 239 does the
opposite — `None if failures else req.prompt` — so with a single rule of
threshold 0.5 and a reply grading 0.80/1 (everything passes, the spec's
scenario A) the response carries the original prompt as a non-null
`rephrased_prompt`, and with a reply grading 0.20/1 (the rule fails) it
carries null. -/
theorem C1_rephrased_prompt_swap :
    (scan_compliance settings0 [compA] reqA (fun _ => replyA)).1
        = .ok { detailed := [("PC1", resA)]
              , rephrased_prompt := some "Summarize the attached function." }
      ∧ resA.passed = true
      ∧ (scan_compliance settings0 [compA] reqA (fun _ => replyB)).1
          = .ok { detailed := [("PC1", resB)], rephrased_prompt := none }
      ∧ resB.passed = false :=
  ⟨rfl, rfl, rfl, rfl⟩

/-- Claim C2: whenever the parsed verdict carries a score ratio, the scan
router reports the rule passed exactly when the ratio is at least the
threshold, ties passing; on the grade `0.66/1`, threshold 0.97 fails,
threshold 0.5 passes, and the exact-tie threshold 0.66 passes. -/
theorem C2_threshold_inclusive :
    (∀ (text : String) (t r : ℚ),
        score_ratio_of (parse_evaluation text) = some r →
          (verdict_passed (parse_evaluation text) t = true ↔ r ≥ t))
      ∧ verdict_passed (parse_evaluation g066) (97/100) = false
      ∧ verdict_passed (parse_evaluation g066) (1/2) = true
      ∧ verdict_passed (parse_evaluation g066) (66/100) = true := by
  refine ⟨?_, by decide, by decide, by decide⟩
  intro text t r h
  unfold verdict_passed
  rw [verdict_ratio_of_some text r h]
  exact decide_eq_true_iff

/-- Witness for C2 at the concrete grade `0.66/1` and threshold 0.5. -/
theorem C2_threshold_inclusive_w :
    verdict_passed (parse_evaluation g066) (1/2) = true :=
  (C2_threshold_inclusive.1 g066 (1/2) (33/50) (by decide)).mpr (by norm_num)

/-- Claim C3: when the score regex finds no match in the extracted grade
block — in particular when the Grade section is missing — the parsed grade
defaults to score 0.00 (denominator 1, ratio 0) instead of raising, and
the rule is reported failed for every positive threshold. -/
theorem C3_parse_miss_zero_grade :
    ∀ (text : String) (t : ℚ),
      reSearch matchScoreAt (grade_block_of text) = none → 0 < t →
        grade_of (parse_evaluation text)
            = some { score_raw := 0, denominator := 1, score_ratio := some 0
                   , threshold := reSearch matchThresholdAt (grade_block_of text)
                   , result := reSearch matchResultAt (grade_block_of text) }
          ∧ verdict_passed (parse_evaluation text) t = false := by
  intro text t h ht
  have hpg : parse_grade_block (grade_block_of text)
      = { score_raw := 0, denominator := 1, score_ratio := some 0
        , threshold := reSearch matchThresholdAt (grade_block_of text)
        , result := reSearch matchResultAt (grade_block_of text) } := by
    simp [parse_grade_block, h]
  have hsr : score_ratio_of (parse_evaluation text) = some 0 := by
    unfold score_ratio_of
    rw [grade_of_parse, hpg]
  refine ⟨by rw [grade_of_parse, hpg], ?_⟩
  unfold verdict_passed
  rw [verdict_ratio_of_some text 0 hsr]
  simp only [ge_iff_le, decide_eq_false_iff_not]
  exact not_le.mpr ht

/-- Witness for C3 on a reply with no Grade section and threshold 1. -/
theorem C3_parse_miss_zero_grade_w :
    grade_of (parse_evaluation plainText) = some defaultGrade
      ∧ verdict_passed (parse_evaluation plainText) 1 = false := by
  have h := C3_parse_miss_zero_grade plainText 1 (by decide) (by norm_num)
  exact ⟨by rw [h.1]; decide, h.2⟩

/-- Claim C4: `parse_evaluation` is total on strings and its result always
carries all six output keys in order; on text without any section header
every value is the empty-string/zero-grade default, and headers emitted
out of the documented order (Grade before Problem) still produce a value
for every key. -/
theorem C4_parser_total_all_keys :
    (∀ text : String, (parse_evaluation text).map Prod.fst = parseKeys)
      ∧ parse_evaluation plainText
          = [ ("problem", .s ""), ("why_it_failed", .s ""), ("what_to_fix", .s "")
            , ("rephrase_prompt", .s ""), ("compliance_id_and_name", .s "")
            , ("grade", .g defaultGrade) ]
      ∧ parse_evaluation oooText
          = [ ("problem", .s "Oops"), ("why_it_failed", .s ""), ("what_to_fix", .s "")
            , ("rephrase_prompt", .s ""), ("compliance_id_and_name", .s "")
            , ("grade", .g { score_raw := 1/2, denominator := 1, score_ratio := some (1/2)
                           , threshold := none, result := none }) ] :=
  ⟨fun _ => rfl, by decide, by decide⟩

/-- Claim C5 (spec-modelled, see `split_list_section`): a block with three
numbered lines yields exactly those three entries; a non-empty block
without numbered lines yields a one-entry list; the empty block yields the
empty list. -/
theorem C5_list_section_split :
    split_list_section "1. alpha\n2. beta\n3. gamma" = ["alpha", "beta", "gamma"]
      ∧ (∀ b : String,
            ((splitOnNl b.data).all fun l => (numbered_entry l).isNone) = true →
            (pyStrip b.data).isEmpty = false →
            split_list_section b = [b])
      ∧ split_list_section "" = [] := by
  refine ⟨by decide, ?_, by decide⟩
  intro b hall hne
  have hfm : (splitOnNl b.data).filterMap numbered_entry = [] := by
    rw [List.filterMap_eq_nil_iff]
    intro a ha
    exact Option.isNone_iff_eq_none.mp (List.all_eq_true.mp hall a ha)
  simp [split_list_section, hfm, hne]

/-- Witness for C5 on the unnumbered non-empty block `hello`. -/
theorem C5_list_section_split_w : split_list_section "hello" = ["hello"] :=
  C5_list_section_split.2.1 "hello" (by decide) (by decide)

/-- Claim C6: whenever the aggregation tail succeeds, the response's
recommendations map holds exactly one entry per key of the request's
`failed_json`, in order; on a reply that only mentions `PC1`, the id
`PC2` is still present, mapped to the empty list. -/
theorem C6_recommendations_cover_failed_ids :
    (∀ (fk : List String) (p : String) (r : PyJson) (resp : AggregationResponse),
        aggregate_result_response fk p r = .ok resp →
          resp.recommendations.map Prod.fst = fk)
      ∧ aggregate_result_response ["PC1", "PC2"] "orig prompt" aggReply = .ok aggRespExpected := by
  constructor
  · intro fk p r resp h
    cases r with
    | null => exact absurd h (by simp [aggregate_result_response])
    | b v => exact absurd h (by simp [aggregate_result_response])
    | num v => exact absurd h (by simp [aggregate_result_response])
    | s v => exact absurd h (by simp [aggregate_result_response])
    | arr items => exact absurd h (by simp [aggregate_result_response])
    | obj entries =>
      simp only [aggregate_result_response] at h
      split at h
      · exact Except.noConfusion h
      · split at h
        · injection h with h1; subst h1; exact map_fst_pair _ fk
        · injection h with h1; subst h1; exact map_fst_pair _ fk
        · exact Except.noConfusion h
  · rfl

/-- Witness for C6: the concrete aggregation covers both failing ids. -/
theorem C6_recommendations_cover_failed_ids_w :
    aggRespExpected.recommendations.map Prod.fst = ["PC1", "PC2"] :=
  C6_recommendations_cover_failed_ids.1 ["PC1", "PC2"] "orig prompt" aggReply
    aggRespExpected C6_recommendations_cover_failed_ids.2

/-- Claim C7, amended: a request with more documents than the configured
maximum count is rejected with the bad-request error before any LLM call
(zero calls issued).  Document size is not validated — see the
counterexample. -/
theorem C7_doc_count_guard :
    ∀ (st : Settings) (comps : List ComplianceDefinition)
      (req : ScanRequest) (oracle : Nat → String),
      0 < st.max_documents → st.max_documents < req.documents.length →
        scan_compliance st comps req oracle
          = (.error ("Too many documents (max " ++ toString st.max_documents ++ ")"), 0) := by
  intro st comps req oracle hpos hlen
  have hne : req.documents ≠ [] := by
    intro h0
    rw [h0] at hlen
    exact absurd hlen (by simp)
  unfold scan_compliance
  rw [if_pos ⟨hne, hlen⟩]

/-- Witness for C7: eleven documents against the default maximum of ten. -/
theorem C7_doc_count_guard_w :
    scan_compliance settings0 [] req11 (fun _ => "")
      = (.error "Too many documents (max 10)", 0) :=
  C7_doc_count_guard settings0 [] req11 (fun _ => "") (by decide) (by decide)

/-- Counterexample to claim C7 as stated: a request with a single document
of five bytes against a configured `max_document_size` of four is NOT
rejected — the scan succeeds and issues one LLM call per rule. -/
theorem C7_size_not_checked_cex :
    settingsSmall.max_document_size < "aaaaa".length
      ∧ isOkE (scan_compliance settingsSmall [compA] reqBig (fun _ => "")).1 = true
      ∧ (scan_compliance settingsSmall [compA] reqBig (fun _ => "")).2 = 1 :=
  ⟨by decide, rfl, rfl⟩

/-- Claim C8: the loader raises distinct errors for a missing source, an
unparsable source, a structurally invalid document, and an item the model
rejects; a load containing a failing item never returns, and a successful
load converts every item of the source — no partial rule set. -/
theorem C8_load_distinct_errors_no_partial :
    load_compliances .missing = .error .fileNotFound
      ∧ load_compliances .unparsable = .error .yamlError
      ∧ (∀ d, validate_compliance_data d = false →
            load_compliances (.parsed d) = .error .invalidStructure)
      ∧ (∀ d item, item ∈ pyItems d → ofItem item = none →
            ∀ cs, load_compliances (.parsed d) ≠ .ok cs)
      ∧ (∀ d cs, load_compliances (.parsed d) = .ok cs →
            mapO ofItem (pyItems d) = some cs ∧ cs.length = (pyItems d).length) := by
  refine ⟨rfl, rfl, ?_, ?_, ?_⟩
  · intro d h
    simp [load_compliances, h]
  · intro d item hmem hnone cs hok
    have hm := mapO_none_of_mem ofItem (pyItems d) item hmem hnone
    simp only [load_compliances] at hok
    by_cases hv : validate_compliance_data d = true
    · rw [if_pos hv, hm] at hok
      exact absurd hok (by simp)
    · rw [if_neg hv] at hok
      exact absurd hok (by simp)
  · intro d cs hok
    simp only [load_compliances] at hok
    by_cases hv : validate_compliance_data d = true
    · rw [if_pos hv] at hok
      cases hm : mapO ofItem (pyItems d) with
      | none => rw [hm] at hok; exact absurd hok (by simp)
      | some ys =>
        rw [hm] at hok
        simp only [Except.ok.injEq] at hok
        subst hok
        exact ⟨rfl, mapO_length ofItem (pyItems d) ys hm⟩
    · rw [if_neg hv] at hok
      exact absurd hok (by simp)

/-- Witness for C8 on a structurally invalid document (a top-level list). -/
theorem C8_load_distinct_errors_no_partial_w :
    load_compliances (.parsed (.arr [])) = .error .invalidStructure :=
  C8_load_distinct_errors_no_partial.2.2.1 (.arr []) rfl

/-- Claim C9: the claim says a rule whose prompt template lacks the
placeholders is rejected at load time.  The code never runs
`validate_prompt_template` (in `compliance_definition.py` the
`@classmethod` decorator is stacked above `@field_validator`, so pydantic
does not register it): loading a definition whose prompt holds neither
placeholder succeeds and returns the rule object, although the validator
body itself would reject that prompt. -/
theorem C9_placeholder_validator_dead :
    load_compliances (.parsed dataNP) = .ok [ruleNP]
      ∧ strOccurs "\x7buser_input\x7d" ruleNP.prompt = false
      ∧ strOccurs "\x7bdocuments\x7d" ruleNP.prompt = false
      ∧ validate_prompt_template ruleNP.prompt
          = .error "Prompt template must contain placeholders" :=
  ⟨rfl, by decide, by decide, rfl⟩

/-- Claim C10: a grade block whose score matches with denominator zero
(for example `Score: 0.5/0`) yields `score_ratio = None` instead of a
division error; the scan router coerces that to 0.0, failing the rule for
every positive threshold. -/
theorem C10_zero_denominator_safe :
    ∀ (text : String) (s t : ℚ),
      reSearch matchScoreAt (grade_block_of text) = some (s, 0) → 0 < t →
        score_ratio_of (parse_evaluation text) = none
          ∧ verdict_ratio (parse_evaluation text) = 0
          ∧ verdict_passed (parse_evaluation text) t = false := by
  intro text s t h ht
  have hsr : score_ratio_of (parse_evaluation text) = none := by
    unfold score_ratio_of
    rw [grade_of_parse]
    simp [parse_grade_block, h]
  have hvr : verdict_ratio (parse_evaluation text) = 0 := by
    unfold verdict_ratio
    rw [hsr]
    rfl
  refine ⟨hsr, hvr, ?_⟩
  unfold verdict_passed
  rw [hvr]
  simp only [ge_iff_le, decide_eq_false_iff_not]
  exact not_le.mpr ht

/-- Witness for C10 on the concrete reply `### Grade` / `Score: 0.5/0`. -/
theorem C10_zero_denominator_safe_w :
    score_ratio_of (parse_evaluation g05d0) = none
      ∧ verdict_ratio (parse_evaluation g05d0) = 0
      ∧ verdict_passed (parse_evaluation g05d0) (1/2) = false :=
  C10_zero_denominator_safe g05d0 (1/2) (1/2) (by decide) (by norm_num)

end Guardrail
